import Mathlib

/-!
Verification of the urdf-simplifier repository (src/main.go) against its
specification.  The Go program is shallowly embedded: the URDF document
model mirrors the Go struct declarations, the three core functions
(`processLink`, `filterToMainChain`, `resolvePackageURI`) are translated
function-by-function, and the external boundaries (filesystem, the STL
bounding-box library, Go's encoding/xml) are modelled as explicit
parameters or as tree-level codecs following the struct tags.

Modelling conventions:
- the filesystem is a `List String` of the paths of the files that exist
  under the base directory, listed in directory-traversal order (the order
  `filepath.Walk` visits them);
- the Bounding-Box Oracle (`stl.CalculateBoundingBoxFromFile`, an external
  library) is a parameter `oracle : String → Option BoundingBox`; `none`
  is the error case;
- float64 values produced by the oracle are modelled as rationals, and
  `fmt.Sprintf "%f"` as fixed six-fractional-digit decimal rendering;
- numeric XML attributes that the program merely carries through without
  ever computing on them (mass, inertia tensor, limit bounds, dynamics)
  are modelled textually;
- warnings printed by `processLink` are returned as a list holding the
  mesh reference of each failed bounding-box computation.
-/

namespace Urdf

/-! ## Document model (the Go struct declarations in src/main.go) -/

/-- Origin: pose attributes `rpy` and `xyz`; both are `omitempty`, the empty
string standing for an absent attribute. -/
structure Origin where
  rpy : String
  xyz : String
deriving DecidableEq

/-- Mesh: a filename/URI reference. -/
structure Mesh where
  filename : String
deriving DecidableEq

/-- Box: a size triple, carried textually as in the document. -/
structure Box where
  size : String
deriving DecidableEq

/-- Geometry: optional `mesh` and `box` children, exactly as the two pointer
fields of the Go struct (not a tagged union at the representation level). -/
structure Geometry where
  mesh : Option Mesh
  box : Option Box
deriving DecidableEq

/-- Visual entry of a link. -/
structure Visual where
  origin : Option Origin
  geometry : Option Geometry
deriving DecidableEq

/-- Collision entry of a link. -/
structure Collision where
  origin : Option Origin
  geometry : Option Geometry
deriving DecidableEq

/-- Mass: the `value` attribute (numeric, carried textually). -/
structure Mass where
  value : String
deriving DecidableEq

/-- Inertia tensor attributes (numeric, carried textually). -/
structure Inertia where
  ixx : String
  ixy : String
  ixz : String
  iyy : String
  iyz : String
  izz : String
deriving DecidableEq

/-- Inertial block of a link. -/
structure Inertial where
  mass : Option Mass
  origin : Option Origin
  inertia : Option Inertia
deriving DecidableEq

/-- Link: named rigid body. -/
structure Link where
  name : String
  visual : List Visual
  collision : List Collision
  inertial : Option Inertial
  origin : Option Origin
deriving DecidableEq

/-- Parent reference of a joint (link name). -/
structure Parent where
  link : String
deriving DecidableEq

/-- Child reference of a joint (link name). -/
structure Child where
  link : String
deriving DecidableEq

/-- Joint axis attribute. -/
structure Axis where
  xyz : String
deriving DecidableEq

/-- Joint limits (numeric, carried textually). -/
structure Limit where
  effort : String
  lower : String
  upper : String
  velocity : String
deriving DecidableEq

/-- Joint dynamics (numeric, carried textually). -/
structure Dynamics where
  damping : String
  friction : String
deriving DecidableEq

/-- Joint: named connector with a motion type and name-based link
references. -/
structure Joint where
  name : String
  type : String
  parent : Option Parent
  child : Option Child
  origin : Option Origin
  axis : Option Axis
  limit : Option Limit
  dynamics : Option Dynamics
deriving DecidableEq

/-- Robot: root document element. -/
structure Robot where
  name : String
  links : List Link
  joints : List Joint
deriving DecidableEq

/-! ## String and path helpers

Character-list implementations of the `strings` / `path/filepath`
operations the program uses, written so that they evaluate by kernel
reduction on concrete inputs. -/

/-- listPre p s: p is a prefix of s (strings.HasPrefix on char lists). -/
def listPre : List Char → List Char → Bool
  | [], _ => true
  | _ :: _, [] => false
  | p :: ps, c :: cs => p == c && listPre ps cs

/-- dropPreChars p s: strip the prefix p from s, `none` when p is not a
prefix (strings.HasPrefix + strings.TrimPrefix combined). -/
def dropPreChars : List Char → List Char → Option (List Char)
  | [], s => some s
  | _ :: _, [] => none
  | p :: ps, c :: cs => if p == c then dropPreChars ps cs else none

/-- breakSlash s: split s at its first '/' into (before, after); `none` when
s has no '/' (the two outcomes of strings.SplitN(s, "/", 2)). -/
def breakSlash : List Char → Option (List Char × List Char)
  | [] => none
  | c :: cs =>
    if c == '/' then some ([], cs)
    else
      match breakSlash cs with
      | some pr => some (c :: pr.1, pr.2)
      | none => none

/-- hasSuf s p: p is a suffix of s (strings.HasSuffix). -/
def hasSuf (s p : String) : Bool :=
  listPre p.data.reverse s.data.reverse

/-- joinPath a b: filepath.Join for already-clean path segments. -/
def joinPath (a b : String) : String :=
  if a = "" then b else if b = "" then a else a ++ "/" ++ b

/-- isAbsPath s: filepath.IsAbs on a Unix system. -/
def isAbsPath (s : String) : Bool :=
  match s.data with
  | '/' :: _ => true
  | _ => false

/-! ## Resource locator (resolvePackageURI in src/main.go) -/

/-- resolvePackageURI: resolve a mesh reference against the base directory.
`fs` is the list of files that exist, in the traversal order of
`filepath.Walk`; `fs.contains` models the `os.Stat` existence check and
`fs.find?` the short-circuiting suffix-match walk. -/
def resolvePackageURI (fs : List String) (uri baseDir : String) : String :=
  match dropPreChars "package://".data uri.data with
  | some relChars =>
    let relativePath : String :=
      match breakSlash relChars with
      | some pr => String.mk pr.2
      | none => String.mk relChars
    let standardPath := joinPath baseDir relativePath
    if fs.contains standardPath then
      standardPath
    else
      match fs.find? (fun p => hasSuf p relativePath) with
      | some foundPath => foundPath
      | none => standardPath
  | none =>
    if isAbsPath uri then uri
    else joinPath baseDir uri

/-! ## Bounding-box oracle boundary -/

/-- A 3D point, components as rationals. -/
structure Vec3 where
  x : Rat
  y : Rat
  z : Rat
deriving DecidableEq

/-- Modelled from the spec: the result type of the external Bounding-Box
Oracle (`stl.CalculateBoundingBoxFromFile` from the stl-bounding-box
library, which is not part of this repository): axis-aligned extents
(`Dimensions()` = width, height, depth) and the box centre. -/
structure BoundingBox where
  width : Rat
  height : Rat
  depth : Rat
  center : Vec3
deriving DecidableEq

/-- pad6 s: left-pad with zeros to six characters. -/
def pad6 (s : String) : String :=
  String.mk (List.replicate (6 - s.length) '0') ++ s

/-- fmtF q: `fmt.Sprintf "%f"` — fixed-point decimal with exactly six
fractional digits (rounding half away from zero), on the rational model of
float64.  Uses only numerator/denominator arithmetic so that it evaluates
by kernel reduction. -/
def fmtF (q : Rat) : String :=
  let sign := if q.num < 0 then "-" else ""
  let n := (q.num.natAbs * 1000000 + q.den / 2) / q.den
  sign ++ Nat.repr (n / 1000000) ++ "." ++ pad6 (Nat.repr (n % 1000000))

/-- fmtTriple: `fmt.Sprintf "%f %f %f"` on three values. -/
def fmtTriple (a b c : Rat) : String :=
  fmtF a ++ " " ++ fmtF b ++ " " ++ fmtF c

/-! ## Link simplifier (processLink in src/main.go) -/

/-- processCollision: the body of the collision loop of `processLink`.
Returns the rewritten collision entry together with the warnings emitted
for it (the mesh reference of each failed bounding-box computation). -/
def processCollision (oracle : String → Option BoundingBox) (fs : List String)
    (baseDir : String) (c : Collision) : Collision × List String :=
  match c.geometry with
  | none => (c, [])
  | some g =>
    match g.mesh with
    | none => (c, [])
    | some m =>
      let stlPath := resolvePackageURI fs m.filename baseDir
      match oracle stlPath with
      | none => (c, [m.filename])
      | some bbox =>
        let newGeometry : Geometry :=
          { g with mesh := none,
                   box := some { size := fmtTriple bbox.width bbox.height bbox.depth } }
        let baseOrigin : Origin :=
          match c.origin with
          | some o => o
          | none => { rpy := "", xyz := "" }
        ({ c with geometry := some newGeometry,
                  origin := some { baseOrigin with
                    xyz := fmtTriple bbox.center.x bbox.center.y bbox.center.z } },
         [])

/-- processLink: move the inertial origin to the link, drop the inertial
block and all visuals, and rewrite every mesh-backed collision geometry.
Returns the simplified link and the warnings emitted while processing
it. -/
def processLink (oracle : String → Option BoundingBox) (fs : List String)
    (baseDir : String) (link : Link) : Link × List String :=
  let newOrigin : Option Origin :=
    match link.inertial with
    | some inert =>
      match inert.origin with
      | some o => some o
      | none => link.origin
    | none => link.origin
  let results := link.collision.map (processCollision oracle fs baseDir)
  ({ link with origin := newOrigin,
               inertial := none,
               visual := [],
               collision := results.map Prod.fst },
   results.flatMap Prod.snd)

/-! ## Chain filter (filterToMainChain in src/main.go) -/

/-- mainChainJoints: the joints whose type is exactly "revolute" or
"prismatic". -/
def mainChainJoints (robot : Robot) : List Joint :=
  robot.joints.filter (fun j => j.type == "revolute" || j.type == "prismatic")

/-- jointLinkNames: the link names a joint references (nil checks as in the
Go loop). -/
def jointLinkNames (j : Joint) : List String :=
  (match j.parent with
   | some p => [p.link]
   | none => []) ++
  (match j.child with
   | some c => [c.link]
   | none => [])

/-- chainLinkNames: the set of link names referenced by the retained
joints, modelled as the list of names (Go uses a map[string]bool; only
membership is ever consulted). -/
def chainLinkNames (joints : List Joint) : List String :=
  joints.flatMap jointLinkNames

/-- filterToMainChain: keep only revolute/prismatic joints and the links
they reference, in original relative order. -/
def filterToMainChain (robot : Robot) : Robot :=
  let mainJoints := mainChainJoints robot
  let linkSet := chainLinkNames mainJoints
  let filteredLinks := robot.links.filter (fun l => linkSet.contains l.name)
  { robot with links := filteredLinks, joints := mainJoints }

/-- simplifyRobot: the document transformation performed by `main` between
parsing and re-serialization: process every link in place, then filter to
the main kinematic chain.  Also returns the accumulated warnings. -/
def simplifyRobot (oracle : String → Option BoundingBox) (fs : List String)
    (baseDir : String) (robot : Robot) : Robot × List String :=
  let results := robot.links.map (processLink oracle fs baseDir)
  let processed : Robot := { robot with links := results.map Prod.fst }
  (filterToMainChain processed, results.flatMap Prod.snd)

/-! ## XML codec

Modelled from the spec: §4.1 Document Model.  Go's `encoding/xml`
marshal/unmarshal (standard library, not part of this repository) driven
by the struct tags of src/main.go, modelled at the level of an XML element
tree — the declaration header, indentation and character escaping are
byte-level concerns outside the model.  Unmarshal is tolerant: missing
elements and attributes yield zero values, unknown children are ignored,
and a non-`robot` root is the only parse error. -/
inductive Xml where
  | elem (tag : String) (attrs : List (String × String)) (children : List Xml)

/-- tag of an element. -/
def Xml.tag : Xml → String
  | .elem t _ _ => t

/-- attribute list of an element. -/
def Xml.attrs : Xml → List (String × String)
  | .elem _ a _ => a

/-- child elements of an element. -/
def Xml.children : Xml → List Xml
  | .elem _ _ c => c

/-- lookupAttr: the value of the first attribute with the given key. -/
def lookupAttr (attrs : List (String × String)) (key : String) : Option String :=
  (attrs.find? (fun a => a.1 == key)).map (fun a => a.2)

/-- attrD x key: attribute value, defaulting to the empty string (Go's
zero value for a missing attribute). -/
def attrD (x : Xml) (key : String) : String :=
  (lookupAttr x.attrs key).getD ""

/-- childrenTagged t x: the child elements with tag t, in document order
(how unmarshal fills a slice field). -/
def childrenTagged (t : String) (x : Xml) : List Xml :=
  x.children.filter (fun c => c.tag == t)

/-- firstChildTagged t x: the first child element with tag t (how unmarshal
fills a singleton pointer field). -/
def firstChildTagged (t : String) (x : Xml) : Option Xml :=
  x.children.find? (fun c => c.tag == t)

/-- optElem f o: marshal of an optional pointer field — nothing for nil,
one element otherwise. -/
def optElem {α : Type} (f : α → Xml) : Option α → List Xml
  | some a => [f a]
  | none => []

/-- optAttr key v: marshal of an `omitempty` attribute. -/
def optAttr (key v : String) : List (String × String) :=
  if v = "" then [] else [(key, v)]

/-- serializeOrigin: `<origin rpy=… xyz=…/>`, both attributes omitempty. -/
def serializeOrigin (o : Origin) : Xml :=
  .elem "origin" (optAttr "rpy" o.rpy ++ optAttr "xyz" o.xyz) []

/-- serializeMass: `<mass value=…/>`. -/
def serializeMass (m : Mass) : Xml :=
  .elem "mass" [("value", m.value)] []

/-- serializeInertia: `<inertia ixx=… … izz=…/>`. -/
def serializeInertia (i : Inertia) : Xml :=
  .elem "inertia"
    [("ixx", i.ixx), ("ixy", i.ixy), ("ixz", i.ixz),
     ("iyy", i.iyy), ("iyz", i.iyz), ("izz", i.izz)] []

/-- serializeInertial: `<inertial>` with optional mass, origin, inertia. -/
def serializeInertial (i : Inertial) : Xml :=
  .elem "inertial" []
    (optElem serializeMass i.mass ++ optElem serializeOrigin i.origin ++
     optElem serializeInertia i.inertia)

/-- serializeMesh: `<mesh filename=…/>`. -/
def serializeMesh (m : Mesh) : Xml :=
  .elem "mesh" [("filename", m.filename)] []

/-- serializeBox: `<box size=…/>`. -/
def serializeBox (b : Box) : Xml :=
  .elem "box" [("size", b.size)] []

/-- serializeGeometry: `<geometry>` with optional mesh and box children. -/
def serializeGeometry (g : Geometry) : Xml :=
  .elem "geometry" [] (optElem serializeMesh g.mesh ++ optElem serializeBox g.box)

/-- serializeVisual: `<visual>` with optional origin and geometry. -/
def serializeVisual (v : Visual) : Xml :=
  .elem "visual" [] (optElem serializeOrigin v.origin ++ optElem serializeGeometry v.geometry)

/-- serializeCollision: `<collision>` with optional origin and geometry. -/
def serializeCollision (c : Collision) : Xml :=
  .elem "collision" [] (optElem serializeOrigin c.origin ++ optElem serializeGeometry c.geometry)

/-- serializeLink: `<link name=…>` with visuals, collisions, optional
inertial and origin, in struct-field order. -/
def serializeLink (l : Link) : Xml :=
  .elem "link" [("name", l.name)]
    (l.visual.map serializeVisual ++ l.collision.map serializeCollision ++
     optElem serializeInertial l.inertial ++ optElem serializeOrigin l.origin)

/-- serializeParent: `<parent link=…/>`. -/
def serializeParent (p : Parent) : Xml :=
  .elem "parent" [("link", p.link)] []

/-- serializeChild: `<child link=…/>`. -/
def serializeChild (c : Child) : Xml :=
  .elem "child" [("link", c.link)] []

/-- serializeAxis: `<axis xyz=…/>`. -/
def serializeAxis (a : Axis) : Xml :=
  .elem "axis" [("xyz", a.xyz)] []

/-- serializeLimit: `<limit effort=… lower=… upper=… velocity=…/>`. -/
def serializeLimit (l : Limit) : Xml :=
  .elem "limit"
    [("effort", l.effort), ("lower", l.lower), ("upper", l.upper),
     ("velocity", l.velocity)] []

/-- serializeDynamics: `<dynamics damping=… friction=…/>`. -/
def serializeDynamics (d : Dynamics) : Xml :=
  .elem "dynamics" [("damping", d.damping), ("friction", d.friction)] []

/-- serializeJoint: `<joint name=… type=…>` with its optional children in
struct-field order. -/
def serializeJoint (j : Joint) : Xml :=
  .elem "joint" [("name", j.name), ("type", j.type)]
    (optElem serializeParent j.parent ++ optElem serializeChild j.child ++
     optElem serializeOrigin j.origin ++ optElem serializeAxis j.axis ++
     optElem serializeLimit j.limit ++ optElem serializeDynamics j.dynamics)

/-- serializeRobot: `<robot name=…>` with all links then all joints. -/
def serializeRobot (r : Robot) : Xml :=
  .elem "robot" [("name", r.name)]
    (r.links.map serializeLink ++ r.joints.map serializeJoint)

/-- parseOrigin: read rpy/xyz attributes, empty when absent. -/
def parseOrigin (x : Xml) : Origin :=
  { rpy := attrD x "rpy", xyz := attrD x "xyz" }

/-- parseMass: read the value attribute. -/
def parseMass (x : Xml) : Mass :=
  { value := attrD x "value" }

/-- parseInertia: read the six tensor attributes. -/
def parseInertia (x : Xml) : Inertia :=
  { ixx := attrD x "ixx", ixy := attrD x "ixy", ixz := attrD x "ixz",
    iyy := attrD x "iyy", iyz := attrD x "iyz", izz := attrD x "izz" }

/-- parseInertial: read optional mass, origin, inertia children. -/
def parseInertial (x : Xml) : Inertial :=
  { mass := (firstChildTagged "mass" x).map parseMass,
    origin := (firstChildTagged "origin" x).map parseOrigin,
    inertia := (firstChildTagged "inertia" x).map parseInertia }

/-- parseMesh: read the filename attribute. -/
def parseMesh (x : Xml) : Mesh :=
  { filename := attrD x "filename" }

/-- parseBox: read the size attribute. -/
def parseBox (x : Xml) : Box :=
  { size := attrD x "size" }

/-- parseGeometry: read optional mesh and box children. -/
def parseGeometry (x : Xml) : Geometry :=
  { mesh := (firstChildTagged "mesh" x).map parseMesh,
    box := (firstChildTagged "box" x).map parseBox }

/-- parseVisual: read optional origin and geometry children. -/
def parseVisual (x : Xml) : Visual :=
  { origin := (firstChildTagged "origin" x).map parseOrigin,
    geometry := (firstChildTagged "geometry" x).map parseGeometry }

/-- parseCollision: read optional origin and geometry children. -/
def parseCollision (x : Xml) : Collision :=
  { origin := (firstChildTagged "origin" x).map parseOrigin,
    geometry := (firstChildTagged "geometry" x).map parseGeometry }

/-- parseLink: read the name attribute, visual and collision lists, and
optional inertial and origin. -/
def parseLink (x : Xml) : Link :=
  { name := attrD x "name",
    visual := (childrenTagged "visual" x).map parseVisual,
    collision := (childrenTagged "collision" x).map parseCollision,
    inertial := (firstChildTagged "inertial" x).map parseInertial,
    origin := (firstChildTagged "origin" x).map parseOrigin }

/-- parseParent: read the link attribute. -/
def parseParent (x : Xml) : Parent :=
  { link := attrD x "link" }

/-- parseChild: read the link attribute. -/
def parseChild (x : Xml) : Child :=
  { link := attrD x "link" }

/-- parseAxis: read the xyz attribute. -/
def parseAxis (x : Xml) : Axis :=
  { xyz := attrD x "xyz" }

/-- parseLimit: read the four bound attributes. -/
def parseLimit (x : Xml) : Limit :=
  { effort := attrD x "effort", lower := attrD x "lower",
    upper := attrD x "upper", velocity := attrD x "velocity" }

/-- parseDynamics: read the damping/friction attributes. -/
def parseDynamics (x : Xml) : Dynamics :=
  { damping := attrD x "damping", friction := attrD x "friction" }

/-- parseJoint: read name/type attributes and the optional children. -/
def parseJoint (x : Xml) : Joint :=
  { name := attrD x "name",
    type := attrD x "type",
    parent := (firstChildTagged "parent" x).map parseParent,
    child := (firstChildTagged "child" x).map parseChild,
    origin := (firstChildTagged "origin" x).map parseOrigin,
    axis := (firstChildTagged "axis" x).map parseAxis,
    limit := (firstChildTagged "limit" x).map parseLimit,
    dynamics := (firstChildTagged "dynamics" x).map parseDynamics }

/-- parseRobot: the root must be a `robot` element; read its name, links
and joints. -/
def parseRobot (x : Xml) : Option Robot :=
  if x.tag == "robot" then
    some { name := attrD x "name",
           links := (childrenTagged "link" x).map parseLink,
           joints := (childrenTagged "joint" x).map parseJoint }
  else none

/-! ## Round-trip lemmas for the XML codec -/

/-- optElem as a map over Option.toList. -/
theorem optElem_eq_toList {α : Type} (f : α → Xml) (o : Option α) :
    optElem f o = o.toList.map f := by
  cases o <;> rfl

/-- filter by the tag the serializer emits keeps every serialized element. -/
theorem childFilter_map_eq {α : Type} (f : α → Xml) (t : String) (l : List α)
    (h : ∀ a, (f a).tag = t) :
    (l.map f).filter (fun c => c.tag == t) = l.map f := by
  induction l with
  | nil => rfl
  | cons a as ih => simp [List.filter_cons, h, ih]

/-- filter by a different tag drops every serialized element. -/
theorem childFilter_map_ne {α : Type} (f : α → Xml) (t t2 : String) (l : List α)
    (h : ∀ a, (f a).tag = t) (hne : (t == t2) = false) :
    (l.map f).filter (fun c => c.tag == t2) = [] := by
  induction l with
  | nil => rfl
  | cons a as ih => simp [List.filter_cons, h, hne, ih]

/-- find? by a different tag skips every serialized element. -/
theorem childFind_map_ne {α : Type} (f : α → Xml) (t t2 : String) (l : List α)
    (h : ∀ a, (f a).tag = t) (hne : (t == t2) = false) :
    (l.map f).find? (fun c => c.tag == t2) = none := by
  induction l with
  | nil => rfl
  | cons a as ih => simp [List.find?_cons, h, hne, ih]

/-- find? by the serializer's tag on an optional field returns the field. -/
theorem childFind_optElem_eq {α : Type} (f : α → Xml) (t : String) (o : Option α)
    (h : ∀ a, (f a).tag = t) :
    (optElem f o).find? (fun c => c.tag == t) = o.map f := by
  cases o <;> simp [optElem, List.find?_cons, h]

/-- find? by a different tag skips an optional field. -/
theorem childFind_optElem_ne {α : Type} (f : α → Xml) (t t2 : String) (o : Option α)
    (h : ∀ a, (f a).tag = t) (hne : (t == t2) = false) :
    (optElem f o).find? (fun c => c.tag == t2) = none := by
  cases o <;> simp [optElem, List.find?_cons, h, hne]

/-- filter by a different tag drops an optional field. -/
theorem childFilter_optElem_ne {α : Type} (f : α → Xml) (t t2 : String) (o : Option α)
    (h : ∀ a, (f a).tag = t) (hne : (t == t2) = false) :
    (optElem f o).filter (fun c => c.tag == t2) = [] := by
  cases o <;> simp [optElem, List.filter_cons, h, hne]

/-- mapping a parser over serialized elements recovers the originals. -/
theorem map_roundtrip {α : Type} (f : α → Xml) (g : Xml → α)
    (h : ∀ a, g (f a) = a) (l : List α) :
    (l.map f).map g = l := by
  induction l with
  | nil => rfl
  | cons a as ih => simp [h, ih]

/-- parsing back an optionally serialized field recovers it. -/
theorem opt_roundtrip {α : Type} (f : α → Xml) (g : Xml → α)
    (h : ∀ a, g (f a) = a) (o : Option α) :
    (o.map f).map g = o := by
  cases o <;> simp [h]

/-- tag emitted by serializeOrigin. -/
theorem tag_serializeOrigin (o : Origin) : (serializeOrigin o).tag = "origin" := rfl

/-- tag emitted by serializeMass. -/
theorem tag_serializeMass (m : Mass) : (serializeMass m).tag = "mass" := rfl

/-- tag emitted by serializeInertia. -/
theorem tag_serializeInertia (i : Inertia) : (serializeInertia i).tag = "inertia" := rfl

/-- tag emitted by serializeInertial. -/
theorem tag_serializeInertial (i : Inertial) : (serializeInertial i).tag = "inertial" := rfl

/-- tag emitted by serializeMesh. -/
theorem tag_serializeMesh (m : Mesh) : (serializeMesh m).tag = "mesh" := rfl

/-- tag emitted by serializeBox. -/
theorem tag_serializeBox (b : Box) : (serializeBox b).tag = "box" := rfl

/-- tag emitted by serializeGeometry. -/
theorem tag_serializeGeometry (g : Geometry) : (serializeGeometry g).tag = "geometry" := rfl

/-- tag emitted by serializeVisual. -/
theorem tag_serializeVisual (v : Visual) : (serializeVisual v).tag = "visual" := rfl

/-- tag emitted by serializeCollision. -/
theorem tag_serializeCollision (c : Collision) : (serializeCollision c).tag = "collision" := rfl

/-- tag emitted by serializeLink. -/
theorem tag_serializeLink (l : Link) : (serializeLink l).tag = "link" := rfl

/-- tag emitted by serializeParent. -/
theorem tag_serializeParent (p : Parent) : (serializeParent p).tag = "parent" := rfl

/-- tag emitted by serializeChild. -/
theorem tag_serializeChild (c : Child) : (serializeChild c).tag = "child" := rfl

/-- tag emitted by serializeAxis. -/
theorem tag_serializeAxis (a : Axis) : (serializeAxis a).tag = "axis" := rfl

/-- tag emitted by serializeLimit. -/
theorem tag_serializeLimit (l : Limit) : (serializeLimit l).tag = "limit" := rfl

/-- tag emitted by serializeDynamics. -/
theorem tag_serializeDynamics (d : Dynamics) : (serializeDynamics d).tag = "dynamics" := rfl

/-- tag emitted by serializeJoint. -/
theorem tag_serializeJoint (j : Joint) : (serializeJoint j).tag = "joint" := rfl

/-- origin codec round-trip (case split on the omitempty attributes). -/
theorem parseOrigin_serialize (o : Origin) : parseOrigin (serializeOrigin o) = o := by
  cases o with
  | mk rpy xyz =>
    by_cases h1 : rpy = "" <;> by_cases h2 : xyz = "" <;>
      simp [parseOrigin, serializeOrigin, optAttr, attrD, lookupAttr, Xml.attrs,
            List.find?_cons, h1, h2]

/-- mass codec round-trip. -/
theorem parseMass_serialize (m : Mass) : parseMass (serializeMass m) = m := by
  cases m with
  | mk v => simp [parseMass, serializeMass, attrD, lookupAttr, Xml.attrs, List.find?_cons]

/-- inertia codec round-trip. -/
theorem parseInertia_serialize (i : Inertia) : parseInertia (serializeInertia i) = i := by
  cases i with
  | mk a b c d e f =>
    simp [parseInertia, serializeInertia, attrD, lookupAttr, Xml.attrs, List.find?_cons]

/-- mesh codec round-trip. -/
theorem parseMesh_serialize (m : Mesh) : parseMesh (serializeMesh m) = m := by
  cases m with
  | mk f => simp [parseMesh, serializeMesh, attrD, lookupAttr, Xml.attrs, List.find?_cons]

/-- box codec round-trip. -/
theorem parseBox_serialize (b : Box) : parseBox (serializeBox b) = b := by
  cases b with
  | mk s => simp [parseBox, serializeBox, attrD, lookupAttr, Xml.attrs, List.find?_cons]

/-- inertial codec round-trip. -/
theorem parseInertial_serialize (i : Inertial) : parseInertial (serializeInertial i) = i := by
  cases i with
  | mk ms og it =>
    cases ms <;> cases og <;> cases it <;>
      simp [parseInertial, serializeInertial, firstChildTagged, Xml.children,
            tag_serializeMass, tag_serializeOrigin, tag_serializeInertia,
            optElem, List.find?_cons, parseMass_serialize, parseOrigin_serialize,
            parseInertia_serialize]

/-- geometry codec round-trip. -/
theorem parseGeometry_serialize (g : Geometry) : parseGeometry (serializeGeometry g) = g := by
  cases g with
  | mk ms bx =>
    cases ms <;> cases bx <;>
      simp [parseGeometry, serializeGeometry, firstChildTagged, Xml.children,
            tag_serializeMesh, tag_serializeBox,
            optElem, List.find?_cons, parseMesh_serialize, parseBox_serialize]

/-- visual codec round-trip. -/
theorem parseVisual_serialize (v : Visual) : parseVisual (serializeVisual v) = v := by
  cases v with
  | mk og gm =>
    cases og <;> cases gm <;>
      simp [parseVisual, serializeVisual, firstChildTagged, Xml.children,
            tag_serializeOrigin, tag_serializeGeometry,
            optElem, List.find?_cons, parseOrigin_serialize, parseGeometry_serialize]

/-- collision codec round-trip. -/
theorem parseCollision_serialize (c : Collision) : parseCollision (serializeCollision c) = c := by
  cases c with
  | mk og gm =>
    cases og <;> cases gm <;>
      simp [parseCollision, serializeCollision, firstChildTagged, Xml.children,
            tag_serializeOrigin, tag_serializeGeometry,
            optElem, List.find?_cons, parseOrigin_serialize, parseGeometry_serialize]

/-- link codec round-trip. -/
theorem parseLink_serialize (l : Link) : parseLink (serializeLink l) = l := by
  cases l with
  | mk nm vs cs it og =>
    cases it <;> cases og <;>
      simp [parseLink, serializeLink, firstChildTagged, childrenTagged, Xml.children,
            Xml.attrs, optElem, List.find?_append, List.filter_append,
            List.find?_cons, List.filter_cons, attrD, lookupAttr,
            tag_serializeInertial, tag_serializeOrigin,
            childFilter_map_eq serializeVisual "visual" vs (fun _ => rfl),
            childFilter_map_ne serializeCollision "collision" "visual" cs (fun _ => rfl)
              (by decide),
            childFilter_map_ne serializeVisual "visual" "collision" vs (fun _ => rfl)
              (by decide),
            childFilter_map_eq serializeCollision "collision" cs (fun _ => rfl),
            childFind_map_ne serializeVisual "visual" "inertial" vs (fun _ => rfl) (by decide),
            childFind_map_ne serializeCollision "collision" "inertial" cs (fun _ => rfl)
              (by decide),
            childFind_map_ne serializeVisual "visual" "origin" vs (fun _ => rfl) (by decide),
            childFind_map_ne serializeCollision "collision" "origin" cs (fun _ => rfl)
              (by decide),
            map_roundtrip serializeVisual parseVisual parseVisual_serialize vs,
            map_roundtrip serializeCollision parseCollision parseCollision_serialize cs,
            parseInertial_serialize, parseOrigin_serialize]

/-- parent codec round-trip. -/
theorem parseParent_serialize (p : Parent) : parseParent (serializeParent p) = p := by
  cases p with
  | mk l => simp [parseParent, serializeParent, attrD, lookupAttr, Xml.attrs, List.find?_cons]

/-- child codec round-trip. -/
theorem parseChild_serialize (c : Child) : parseChild (serializeChild c) = c := by
  cases c with
  | mk l => simp [parseChild, serializeChild, attrD, lookupAttr, Xml.attrs, List.find?_cons]

/-- axis codec round-trip. -/
theorem parseAxis_serialize (a : Axis) : parseAxis (serializeAxis a) = a := by
  cases a with
  | mk v => simp [parseAxis, serializeAxis, attrD, lookupAttr, Xml.attrs, List.find?_cons]

/-- limit codec round-trip. -/
theorem parseLimit_serialize (l : Limit) : parseLimit (serializeLimit l) = l := by
  cases l with
  | mk a b c d =>
    simp [parseLimit, serializeLimit, attrD, lookupAttr, Xml.attrs, List.find?_cons]

/-- dynamics codec round-trip. -/
theorem parseDynamics_serialize (d : Dynamics) : parseDynamics (serializeDynamics d) = d := by
  cases d with
  | mk a b =>
    simp [parseDynamics, serializeDynamics, attrD, lookupAttr, Xml.attrs, List.find?_cons]

/-- joint codec round-trip. -/
theorem parseJoint_serialize (j : Joint) : parseJoint (serializeJoint j) = j := by
  cases j with
  | mk nm ty pa ch og ax li dy =>
    cases pa <;> cases ch <;> cases og <;> cases ax <;> cases li <;> cases dy <;>
      simp [parseJoint, serializeJoint, firstChildTagged, Xml.children, Xml.attrs,
            optElem, List.find?_cons, attrD, lookupAttr,
            tag_serializeParent, tag_serializeChild, tag_serializeOrigin,
            tag_serializeAxis, tag_serializeLimit, tag_serializeDynamics,
            parseParent_serialize, parseChild_serialize, parseOrigin_serialize,
            parseAxis_serialize, parseLimit_serialize, parseDynamics_serialize]

/-- robot codec round-trip: parsing a just-serialized robot recovers it. -/
theorem parseRobot_serialize (r : Robot) : parseRobot (serializeRobot r) = some r := by
  cases r with
  | mk nm ls js =>
    simp only [parseRobot, serializeRobot, Xml.tag, Xml.attrs]
    simp [childrenTagged, Xml.children, List.filter_append, attrD, lookupAttr,
          List.find?_cons, Xml.attrs,
          childFilter_map_eq serializeLink "link" ls (fun _ => rfl),
          childFilter_map_ne serializeJoint "joint" "link" js (fun _ => rfl) (by decide),
          childFilter_map_ne serializeLink "link" "joint" ls (fun _ => rfl) (by decide),
          childFilter_map_eq serializeJoint "joint" js (fun _ => rfl),
          map_roundtrip serializeLink parseLink parseLink_serialize ls,
          map_roundtrip serializeJoint parseJoint parseJoint_serialize js]

/-! ## Chain filter lemmas -/

/-- filtering twice with the same predicate equals filtering once. -/
theorem filter_idem {α : Type} (p : α → Bool) (l : List α) :
    (l.filter p).filter p = l.filter p := by
  induction l with
  | nil => rfl
  | cons a as ih =>
    by_cases h : p a = true <;> simp [List.filter_cons, h, ih]

/-- membership in the names referenced by one joint. -/
theorem mem_jointLinkNames (j : Joint) (n : String) :
    n ∈ jointLinkNames j ↔ j.parent = some ⟨n⟩ ∨ j.child = some ⟨n⟩ := by
  obtain ⟨nm, ty, pa, ch, og, ax, li, dy⟩ := j
  cases pa with
  | none => cases ch with
    | none => simp [jointLinkNames]
    | some c => cases c with
      | mk cl => simp [jointLinkNames, eq_comm]
  | some p => cases p with
    | mk pl =>
      cases ch with
      | none => simp [jointLinkNames, eq_comm]
      | some c => cases c with
        | mk cl => simp [jointLinkNames, eq_comm]

/-- membership in the link-name set built from a joint list. -/
theorem mem_chainLinkNames (js : List Joint) (n : String) :
    (chainLinkNames js).contains n = true ↔
      ∃ j ∈ js, j.parent = some ⟨n⟩ ∨ j.child = some ⟨n⟩ := by
  simp [chainLinkNames, List.elem_iff, List.mem_flatMap, mem_jointLinkNames]

/-- sample link with only a name, as in the spec's chain-filter example. -/
def exLink (n : String) : Link :=
  { name := n, visual := [], collision := [], inertial := none, origin := none }

/-- sample joint with a name, a type and parent/child references. -/
def exJoint (n ty pa ch : String) : Joint :=
  { name := n, type := ty, parent := some ⟨pa⟩, child := some ⟨ch⟩,
    origin := none, axis := none, limit := none, dynamics := none }

/-- the robot of the spec's chain-filter example: five links A–E, two
actuated joints in a fixed-joint sandwich. -/
def exRobotChain : Robot :=
  { name := "r",
    links := [exLink "A", exLink "B", exLink "C", exLink "D", exLink "E"],
    joints := [exJoint "j1" "fixed" "A" "B", exJoint "j2" "revolute" "B" "C",
               exJoint "j3" "prismatic" "C" "D", exJoint "j4" "fixed" "D" "E"] }

/-- C2: the Chain Filter retains exactly the joints typed "revolute" or
"prismatic" (case-sensitive) and exactly the links named as parent or
child of a retained joint, each as a subsequence of the original order;
on the spec's example (fixed A→B, revolute B→C, prismatic C→D, fixed D→E
over links A..E) the output is joints {B→C, C→D} and links {B, C, D}. -/
theorem C2_chain_filter_correct (r : Robot) :
    ((filterToMainChain r).joints.Sublist r.joints ∧
      ∀ j, j ∈ (filterToMainChain r).joints ↔
        j ∈ r.joints ∧ (j.type = "revolute" ∨ j.type = "prismatic")) ∧
    ((filterToMainChain r).links.Sublist r.links ∧
      ∀ l, l ∈ (filterToMainChain r).links ↔
        l ∈ r.links ∧ ∃ j ∈ (filterToMainChain r).joints,
          j.parent = some ⟨l.name⟩ ∨ j.child = some ⟨l.name⟩) ∧
    ((filterToMainChain exRobotChain).joints =
        [exJoint "j2" "revolute" "B" "C", exJoint "j3" "prismatic" "C" "D"] ∧
     (filterToMainChain exRobotChain).links = [exLink "B", exLink "C", exLink "D"]) := by
  refine ⟨⟨List.filter_sublist _, fun j => ?_⟩, ⟨List.filter_sublist _, fun l => ?_⟩,
    by decide, by decide⟩
  · simp [filterToMainChain, mainChainJoints, List.mem_filter]
  · simp only [filterToMainChain, List.mem_filter]
    constructor
    · rintro ⟨hl, hset⟩
      exact ⟨hl, (mem_chainLinkNames _ _).mp hset⟩
    · rintro ⟨hl, hset⟩
      exact ⟨hl, (mem_chainLinkNames _ _).mpr hset⟩

/-- C7: the Chain Filter is idempotent — applying it twice yields the same
robot as applying it once. -/
theorem C7_filter_idempotent (r : Robot) :
    filterToMainChain (filterToMainChain r) = filterToMainChain r := by
  cases r with
  | mk nm ls js =>
    simp only [filterToMainChain, mainChainJoints, chainLinkNames]
    rw [filter_idem, filter_idem]

/-- robot with a revolute joint whose parent and child names match no link
at all. -/
def exRobotDangling : Robot :=
  { name := "r", links := [exLink "base"],
    joints := [exJoint "j" "revolute" "ghostParent" "ghostChild"] }

/-- C8 counterexample: a revolute joint with dangling parent/child
references is retained by the Chain Filter, and no link of the output
carries the referenced name — the dangling joint is not pruned, so the
claim as stated fails. -/
theorem C8_dangling_counterexample :
    (filterToMainChain exRobotDangling).joints = [exJoint "j" "revolute" "ghostParent" "ghostChild"] ∧
    (exJoint "j" "revolute" "ghostParent" "ghostChild").parent = some ⟨"ghostParent"⟩ ∧
    (filterToMainChain exRobotDangling).links.any
      (fun l => l.name == "ghostParent") = false := by
  decide

/-- C8 (amended): when every joint of the input references existing links,
every retained joint's parent and child names reference entries of the
filtered Links collection; the filter itself is total and never treats a
dangling reference as an error. -/
theorem C8_integrity_preserved (r : Robot)
    (h : ∀ j ∈ r.joints,
      (∀ p ∈ j.parent.toList, r.links.any (fun l => l.name == p.link) = true) ∧
      (∀ c ∈ j.child.toList, r.links.any (fun l => l.name == c.link) = true)) :
    ∀ j ∈ (filterToMainChain r).joints,
      (∀ p ∈ j.parent.toList,
        (filterToMainChain r).links.any (fun l => l.name == p.link) = true) ∧
      (∀ c ∈ j.child.toList,
        (filterToMainChain r).links.any (fun l => l.name == c.link) = true) := by
  intro j hj
  have hj2 : j ∈ r.joints ∧ (j.type == "revolute" || j.type == "prismatic") = true := by
    have := hj
    simp only [filterToMainChain, mainChainJoints, List.mem_filter] at this
    exact this
  have hmain : j ∈ mainChainJoints r := by
    simp [mainChainJoints, List.mem_filter, hj2.1, hj2.2]
  constructor
  · intro p hp
    obtain ⟨l0, hl0, hname⟩ := by
      have := (h j hj2.1).1 p hp
      simpa [List.any_eq_true, beq_iff_eq] using this
    have hset : (chainLinkNames (mainChainJoints r)).contains l0.name = true := by
      refine (mem_chainLinkNames _ _).mpr ⟨j, hmain, Or.inl ?_⟩
      cases p with
      | mk pl =>
        have hp2 : j.parent = some ⟨pl⟩ := by
          cases hpar : j.parent with
          | none => rw [hpar] at hp; simp [Option.toList] at hp
          | some q => rw [hpar] at hp; simp [Option.toList] at hp; rw [hp]
        rw [hname]; exact hp2
    have hl0out : l0 ∈ (filterToMainChain r).links := by
      simp only [filterToMainChain, List.mem_filter]
      exact ⟨hl0, hset⟩
    simp only [List.any_eq_true, beq_iff_eq]
    exact ⟨l0, hl0out, hname⟩
  · intro c hc
    obtain ⟨l0, hl0, hname⟩ := by
      have := (h j hj2.1).2 c hc
      simpa [List.any_eq_true, beq_iff_eq] using this
    have hset : (chainLinkNames (mainChainJoints r)).contains l0.name = true := by
      refine (mem_chainLinkNames _ _).mpr ⟨j, hmain, Or.inr ?_⟩
      cases c with
      | mk cl =>
        have hc2 : j.child = some ⟨cl⟩ := by
          cases hch : j.child with
          | none => rw [hch] at hc; simp [Option.toList] at hc
          | some q => rw [hch] at hc; simp [Option.toList] at hc; rw [hc]
        rw [hname]; exact hc2
    have hl0out : l0 ∈ (filterToMainChain r).links := by
      simp only [filterToMainChain, List.mem_filter]
      exact ⟨hl0, hset⟩
    simp only [List.any_eq_true, beq_iff_eq]
    exact ⟨l0, hl0out, hname⟩

/-- robot whose single revolute joint references the two links that exist. -/
def exRobotOk : Robot :=
  { name := "r", links := [exLink "B", exLink "C"],
    joints := [exJoint "j" "revolute" "B" "C"] }

/-- C8 witness: the amended theorem applies to a concrete robot with
referential integrity, showing a retained link carrying the parent name. -/
theorem C8_integrity_preserved_witness :
    (filterToMainChain exRobotOk).links.any (fun l => l.name == "B") = true :=
  (C8_integrity_preserved exRobotOk (by decide)
    (exJoint "j" "revolute" "B" "C") (by decide)).1 ⟨"B"⟩ (by decide)

/-! ## Link simplifier lemmas and examples -/

/-- integer-valued rational, built without normalization so that it
evaluates by kernel reduction. -/
def ratInt (n : Int) : Rat :=
  ⟨n, 1, one_ne_zero, Nat.coprime_one_right _⟩

/-- an oracle that always fails. -/
def oracleNone : String → Option BoundingBox := fun _ => none

/-- unit bounding box centred at the origin. -/
def bbUnit : BoundingBox :=
  ⟨ratInt 1, ratInt 1, ratInt 1, ⟨ratInt 0, ratInt 0, ratInt 0⟩⟩

/-- an oracle that succeeds everywhere with the unit box. -/
def oracleAll : String → Option BoundingBox := fun _ => some bbUnit

/-- 1×2×3 bounding box centred at (4,5,6). -/
def bbC5 : BoundingBox :=
  ⟨ratInt 1, ratInt 2, ratInt 3, ⟨ratInt 4, ratInt 5, ratInt 6⟩⟩

/-- an oracle that succeeds only on the path "/m/good.stl". -/
def oracleGoodOnly : String → Option BoundingBox :=
  fun p => if p = "/m/good.stl" then some bbC5 else none

/-- collision entry holding a mesh reference and nothing else. -/
def exCollision (f : String) : Collision :=
  { origin := none, geometry := some { mesh := some ⟨f⟩, box := none } }

/-- a successfully processed collision's geometry holds no mesh. -/
theorem processCollision_mesh_none (oracle : String → Option BoundingBox)
    (fs : List String) (baseDir : String) (c : Collision)
    (h : ∀ m ∈ (c.geometry.bind Geometry.mesh).toList,
          (oracle (resolvePackageURI fs m.filename baseDir)).isSome = true) :
    (processCollision oracle fs baseDir c).1.geometry.bind Geometry.mesh = none := by
  cases hg : c.geometry with
  | none => simp [processCollision, hg]
  | some g =>
    cases hm : g.mesh with
    | none => simp [processCollision, hg, hm]
    | some m =>
      have hm2 := h m (by rw [hg]; simp [Option.bind, hm])
      cases ho : oracle (resolvePackageURI fs m.filename baseDir) with
      | none => rw [ho] at hm2; simp at hm2
      | some bbox => simp [processCollision, hg, hm, ho]

/-- after processLink, no collision geometry of the link holds a mesh,
provided the oracle succeeded on every resolved mesh reference. -/
theorem processLink_mesh_none (oracle : String → Option BoundingBox)
    (fs : List String) (baseDir : String) (link : Link)
    (h : ∀ c ∈ link.collision, ∀ m ∈ (c.geometry.bind Geometry.mesh).toList,
          (oracle (resolvePackageURI fs m.filename baseDir)).isSome = true) :
    ∀ c ∈ (processLink oracle fs baseDir link).1.collision,
      c.geometry.bind Geometry.mesh = none := by
  intro c hc
  have hc2 : c ∈ (link.collision.map (processCollision oracle fs baseDir)).map Prod.fst := by
    simpa [processLink] using hc
  rw [List.map_map] at hc2
  obtain ⟨c0, hc0, rfl⟩ := List.mem_map.mp hc2
  exact processCollision_mesh_none oracle fs baseDir c0 (h c0 hc0)

/-- the collision children of a serialized joint are empty. -/
theorem childrenTagged_collision_serializeJoint (j : Joint) :
    childrenTagged "collision" (serializeJoint j) = [] := by
  obtain ⟨nm, ty, pa, ch, og, ax, li, dy⟩ := j
  cases pa <;> cases ch <;> cases og <;> cases ax <;> cases li <;> cases dy <;>
    simp [childrenTagged, serializeJoint, Xml.children, optElem, List.filter_cons,
          tag_serializeParent, tag_serializeChild, tag_serializeOrigin,
          tag_serializeAxis, tag_serializeLimit, tag_serializeDynamics]

/-- the collision children of a serialized link are its serialized
collision entries. -/
theorem childrenTagged_collision_serializeLink (l : Link) :
    childrenTagged "collision" (serializeLink l) = l.collision.map serializeCollision := by
  obtain ⟨nm, vs, cs, it, og⟩ := l
  cases it <;> cases og <;>
    simp [childrenTagged, serializeLink, Xml.children, optElem, List.filter_append,
          List.filter_cons, tag_serializeInertial, tag_serializeOrigin,
          childFilter_map_ne serializeVisual "visual" "collision" vs (fun _ => rfl) (by decide),
          childFilter_map_eq serializeCollision "collision" cs (fun _ => rfl)]

/-- the geometry children of a serialized collision entry. -/
theorem childrenTagged_geometry_serializeCollision (c : Collision) :
    childrenTagged "geometry" (serializeCollision c) =
      c.geometry.toList.map serializeGeometry := by
  obtain ⟨og, gm⟩ := c
  cases og <;> cases gm <;>
    simp [childrenTagged, serializeCollision, Xml.children, optElem, List.filter_cons,
          tag_serializeOrigin, tag_serializeGeometry]

/-- the mesh children of a serialized geometry. -/
theorem childrenTagged_mesh_serializeGeometry (g : Geometry) :
    childrenTagged "mesh" (serializeGeometry g) = g.mesh.toList.map serializeMesh := by
  obtain ⟨ms, bx⟩ := g
  cases ms <;> cases bx <;>
    simp [childrenTagged, serializeGeometry, Xml.children, optElem, List.filter_cons,
          tag_serializeMesh, tag_serializeBox]

/-- C1: when every collision mesh reference of the document resolves to a
path on which the oracle succeeds, the simplified robot holds no mesh in
any collision geometry, and its serialized document contains zero mesh
elements inside collision elements. -/
theorem C1_mesh_elimination (oracle : String → Option BoundingBox)
    (fs : List String) (baseDir : String) (r : Robot)
    (h : ∀ li ∈ r.links, ∀ c ∈ li.collision, ∀ m ∈ (c.geometry.bind Geometry.mesh).toList,
          (oracle (resolvePackageURI fs m.filename baseDir)).isSome = true) :
    (∀ li ∈ (simplifyRobot oracle fs baseDir r).1.links, ∀ c ∈ li.collision,
        c.geometry.bind Geometry.mesh = none) ∧
    (∀ le ∈ (serializeRobot (simplifyRobot oracle fs baseDir r).1).children,
      ∀ ce ∈ childrenTagged "collision" le, ∀ ge ∈ childrenTagged "geometry" ce,
        childrenTagged "mesh" ge = []) := by
  have hrobot : ∀ li ∈ (simplifyRobot oracle fs baseDir r).1.links, ∀ c ∈ li.collision,
      c.geometry.bind Geometry.mesh = none := by
    intro li hli c hc
    have hli2 : li ∈ (r.links.map (processLink oracle fs baseDir)).map Prod.fst := by
      have : li ∈ (filterToMainChain
          { r with links := (r.links.map (processLink oracle fs baseDir)).map Prod.fst }).links := by
        simpa [simplifyRobot] using hli
      simp only [filterToMainChain, List.mem_filter] at this
      exact this.1
    rw [List.map_map] at hli2
    obtain ⟨l0, hl0, rfl⟩ := List.mem_map.mp hli2
    exact processLink_mesh_none oracle fs baseDir l0 (h l0 hl0) c hc
  refine ⟨hrobot, ?_⟩
  intro le hle ce hce ge hge
  simp only [serializeRobot, Xml.children, List.mem_append] at hle
  rcases hle with hle | hle
  · obtain ⟨li, hli, rfl⟩ := List.mem_map.mp hle
    rw [childrenTagged_collision_serializeLink] at hce
    obtain ⟨c, hc, rfl⟩ := List.mem_map.mp hce
    rw [childrenTagged_geometry_serializeCollision] at hge
    obtain ⟨g, hg, rfl⟩ := List.mem_map.mp hge
    have hgeom : c.geometry = some g := by
      cases hcg : c.geometry with
      | none => rw [hcg] at hg; simp [Option.toList] at hg
      | some g0 => rw [hcg] at hg; simp [Option.toList] at hg; rw [hg]
    have hmesh : g.mesh = none := by
      have := hrobot li hli c hc
      rw [hgeom] at this
      simpa [Option.bind] using this
    rw [childrenTagged_mesh_serializeGeometry, hmesh]
    rfl
  · obtain ⟨j, hj, rfl⟩ := List.mem_map.mp hle
    rw [childrenTagged_collision_serializeJoint] at hce
    simp at hce

/-- simplified robot with one link "B" carrying one mesh collision, one
link "C", and a revolute joint keeping both in the chain. -/
def exRobotOneMesh : Robot :=
  { name := "r",
    links := [{ name := "B", visual := [], collision := [exCollision "/m/a.stl"],
                inertial := none, origin := none }, exLink "C"],
    joints := [exJoint "j" "revolute" "B" "C"] }

/-- the collision entry "B" ends up with after simplification with the
always-unit oracle. -/
def cUnitOut : Collision :=
  { origin := some ⟨"", "0.000000 0.000000 0.000000"⟩,
    geometry := some { mesh := none, box := some ⟨"1.000000 1.000000 1.000000"⟩ } }

/-- link "B" after simplification with the always-unit oracle. -/
def liUnitOut : Link :=
  { name := "B", visual := [], collision := [cUnitOut], inertial := none, origin := none }

/-- C1 witness: the mesh-elimination theorem applied to a concrete
one-mesh robot with an always-succeeding oracle. -/
theorem C1_mesh_elimination_witness : cUnitOut.geometry.bind Geometry.mesh = none :=
  (C1_mesh_elimination oracleAll [] "/b" exRobotOneMesh (by decide)).1
    liUnitOut (by decide) cUnitOut (by decide)

/-- C3: on oracle success, the Link Simplifier replaces the collision's
mesh with a box sized by the oracle's (width, height, depth), sets (or
creates) the collision origin's position to the oracle's centroid, leaves
its orientation unchanged, and emits no warning. -/
theorem C3_mesh_to_box (oracle : String → Option BoundingBox)
    (fs : List String) (baseDir : String) (c : Collision) (g : Geometry)
    (m : Mesh) (bbox : BoundingBox)
    (hg : c.geometry = some g) (hm : g.mesh = some m)
    (ho : oracle (resolvePackageURI fs m.filename baseDir) = some bbox) :
    processCollision oracle fs baseDir c =
      ({ c with
          geometry := some { g with
            mesh := none,
            box := some { size := fmtTriple bbox.width bbox.height bbox.depth } },
          origin := some { rpy := (match c.origin with | some o => o.rpy | none => ""),
                           xyz := fmtTriple bbox.center.x bbox.center.y bbox.center.z } },
       []) := by
  cases horig : c.origin <;>
    simp [processCollision, hg, hm, ho, horig]

/-- mesh collision with a pre-existing origin whose orientation must
survive. -/
def cWithOrigin : Collision :=
  { origin := some ⟨"0 0 1", "9 9 9"⟩,
    geometry := some { mesh := some ⟨"/m/good.stl"⟩, box := none } }

/-- C3 witness: the theorem applied to a concrete collision with a
pre-existing origin — the rpy survives, the xyz becomes the centroid. -/
theorem C3_mesh_to_box_witness :
    processCollision oracleGoodOnly [] "/b" cWithOrigin =
      ({ origin := some ⟨"0 0 1", "4.000000 5.000000 6.000000"⟩,
         geometry := some { mesh := none, box := some ⟨"1.000000 2.000000 3.000000"⟩ } },
       []) :=
  C3_mesh_to_box oracleGoodOnly [] "/b" cWithOrigin
    { mesh := some ⟨"/m/good.stl"⟩, box := none } ⟨"/m/good.stl"⟩ bbC5
    rfl rfl (by decide)

/-- C4: a link whose Inertial block holds an Origin ends up with that
Origin at link level (overwriting any pre-existing one), with no inertial
left in the model nor in the serialized output. -/
theorem C4_origin_relocation (oracle : String → Option BoundingBox)
    (fs : List String) (baseDir : String) (link : Link) (inert : Inertial) (o : Origin)
    (hi : link.inertial = some inert) (ho : inert.origin = some o) :
    (processLink oracle fs baseDir link).1.origin = some o ∧
    (processLink oracle fs baseDir link).1.inertial = none ∧
    firstChildTagged "inertial" (serializeLink (processLink oracle fs baseDir link).1) = none := by
  refine ⟨by simp [processLink, hi, ho], by simp [processLink], ?_⟩
  simp [processLink, hi, ho, serializeLink, firstChildTagged, Xml.children, optElem,
        List.find?_append, List.find?_cons, tag_serializeOrigin, tag_serializeCollision]

/-- the spec's origin-relocation example link: inertial origin
xyz="1 2 3", no link-level origin. -/
def exLinkInertial : Link :=
  { name := "L", visual := [], collision := [],
    inertial := some { mass := none, origin := some ⟨"", "1 2 3"⟩, inertia := none },
    origin := none }

/-- C4 witness: the theorem applied to the spec's example link. -/
theorem C4_origin_relocation_witness :
    (processLink oracleNone [] "" exLinkInertial).1.origin = some ⟨"", "1 2 3"⟩ ∧
    (processLink oracleNone [] "" exLinkInertial).1.inertial = none :=
  ⟨(C4_origin_relocation oracleNone [] "" exLinkInertial _ _ rfl rfl).1,
   (C4_origin_relocation oracleNone [] "" exLinkInertial _ _ rfl rfl).2.1⟩

/-- the document of the spec's failure-isolation example: one link with a
failing mesh and a valid mesh, kept in the chain by a revolute joint. -/
def exRobotTwoMesh : Robot :=
  { name := "r",
    links := [{ name := "B", visual := [],
                collision := [exCollision "/m/bad.stl", exCollision "/m/good.stl"],
                inertial := none, origin := none }, exLink "C"],
    joints := [exJoint "j" "revolute" "B" "C"] }

/-- the valid collision of the example after simplification. -/
def cGoodOut : Collision :=
  { origin := some ⟨"", "4.000000 5.000000 6.000000"⟩,
    geometry := some { mesh := none, box := some ⟨"1.000000 2.000000 3.000000"⟩ } }

/-- C5: on oracle failure the collision is left untouched as a mesh and
exactly one warning naming the mesh reference is emitted, and processing
continues; on the spec's two-mesh document the valid mesh becomes a box,
the failing one stays a mesh, and exactly one warning is emitted. -/
theorem C5_failure_isolation :
    (∀ (oracle : String → Option BoundingBox) (fs : List String) (baseDir : String)
       (c : Collision) (g : Geometry) (m : Mesh),
        c.geometry = some g → g.mesh = some m →
        oracle (resolvePackageURI fs m.filename baseDir) = none →
        processCollision oracle fs baseDir c = (c, [m.filename])) ∧
    simplifyRobot oracleGoodOnly [] "/b" exRobotTwoMesh =
      ({ name := "r",
         links := [{ name := "B", visual := [],
                     collision := [exCollision "/m/bad.stl", cGoodOut],
                     inertial := none, origin := none }, exLink "C"],
         joints := [exJoint "j" "revolute" "B" "C"] },
       ["/m/bad.stl"]) := by
  constructor
  · intro oracle fs baseDir c g m hg hm ho
    simp [processCollision, hg, hm, ho]
  · decide

/-- C5 witness: the per-collision clause applied to the failing mesh of
the example. -/
theorem C5_failure_isolation_witness :
    processCollision oracleGoodOnly [] "/b" (exCollision "/m/bad.stl") =
      (exCollision "/m/bad.stl", ["/m/bad.stl"]) :=
  C5_failure_isolation.1 oracleGoodOnly [] "/b" (exCollision "/m/bad.stl")
    { mesh := some ⟨"/m/bad.stl"⟩, box := none } ⟨"/m/bad.stl"⟩ rfl rfl (by decide)

/-! ## Resource locator lemmas -/

/-- stripping an exact prefix succeeds and leaves the remainder. -/
theorem dropPreChars_append (p s : List Char) : dropPreChars p (p ++ s) = some s := by
  induction p with
  | nil => rfl
  | cons a as ih => simp [dropPreChars, ih]

/-- a slash-free character list does not break at a slash. -/
theorem breakSlash_no_slash (s : List Char) (h : ¬ '/' ∈ s) : breakSlash s = none := by
  induction s with
  | nil => rfl
  | cons a as ih =>
    simp only [List.mem_cons, not_or] at h
    have ha : (a == '/') = false := by
      simp only [beq_eq_false_iff_ne, ne_eq]
      exact fun e => h.1 e.symm
    simp [breakSlash, ha, ih h.2]

/-- a list of the form pkg ++ '/' :: rest, with pkg slash-free, breaks into
(pkg, rest). -/
theorem breakSlash_split (pkg rest : List Char) (h : ¬ '/' ∈ pkg) :
    breakSlash (pkg ++ '/' :: rest) = some (pkg, rest) := by
  induction pkg with
  | nil => simp [breakSlash]
  | cons a as ih =>
    simp only [List.mem_cons, not_or] at h
    have ha : (a == '/') = false := by
      simp only [beq_eq_false_iff_ne, ne_eq]
      exact fun e => h.1 e.symm
    simp [breakSlash, ha, ih h.2]

/-- C6: for a package URI `package://pkg/rest`, resolution returns
join(baseDir, rest) when a file exists there, otherwise the first file of
the walk whose path has suffix rest, otherwise join(baseDir, rest)
anyway. -/
theorem C6_resolution_fallback (fs : List String) (baseDir pkg rest uri : String)
    (hpkg : ¬ '/' ∈ pkg.data)
    (huri : uri.data = "package://".data ++ (pkg.data ++ '/' :: rest.data)) :
    (fs.contains (joinPath baseDir rest) = true →
        resolvePackageURI fs uri baseDir = joinPath baseDir rest) ∧
    (fs.contains (joinPath baseDir rest) = false →
      ∀ found, fs.find? (fun p => hasSuf p rest) = some found →
        resolvePackageURI fs uri baseDir = found) ∧
    (fs.contains (joinPath baseDir rest) = false →
      fs.find? (fun p => hasSuf p rest) = none →
        resolvePackageURI fs uri baseDir = joinPath baseDir rest) := by
  refine ⟨fun hc => ?_, fun hc found hf => ?_, fun hc hf => ?_⟩ <;>
  · unfold resolvePackageURI
    rw [huri, dropPreChars_append]
    simp only [breakSlash_split pkg.data rest.data hpkg]
    simp only [show String.mk rest.data = rest from rfl, hc]
    simp [hc]
    try simp [hf]

/-- C6 witness: the spec's fallback example — no file at the joined
candidate, one nested file matching the suffix. -/
theorem C6_resolution_fallback_witness :
    resolvePackageURI ["/x/nested/meshes/arm.stl"]
      "package://foo_description/meshes/arm.stl" "/x" = "/x/nested/meshes/arm.stl" :=
  (C6_resolution_fallback ["/x/nested/meshes/arm.stl"] "/x" "foo_description"
      "meshes/arm.stl" "package://foo_description/meshes/arm.stl"
      (by decide) (by decide)).2.1 (by decide) "/x/nested/meshes/arm.stl" (by decide)

/-- C10: a package URI with no slash after the scheme keeps the whole
remainder as the relative path — the candidate is join(baseDir, X) and the
fallback suffix search matches paths ending in X. -/
theorem C10_bare_package_uri (fs : List String) (baseDir x uri : String)
    (hx : ¬ '/' ∈ x.data)
    (huri : uri.data = "package://".data ++ x.data) :
    resolvePackageURI fs uri baseDir =
      (if fs.contains (joinPath baseDir x) then joinPath baseDir x
       else
        match fs.find? (fun p => hasSuf p x) with
        | some found => found
        | none => joinPath baseDir x) := by
  unfold resolvePackageURI
  rw [huri, dropPreChars_append]
  simp only [breakSlash_no_slash x.data hx]

/-- C10 witness: `package://arm.stl` resolved against "/b" falls back to
the suffix search and finds the nested file. -/
theorem C10_bare_package_uri_witness :
    resolvePackageURI ["/b/nested/arm.stl"] "package://arm.stl" "/b" = "/b/nested/arm.stl" := by
  rw [C10_bare_package_uri ["/b/nested/arm.stl"] "/b" "arm.stl" "package://arm.stl"
        (by decide) (by decide)]
  decide

/-! ## Round-trip claim -/

/-- C9: for every document the parser accepts, serializing the parsed
robot and re-parsing it reproduces the parse of the original document —
no drift under repeated serialize-then-parse. -/
theorem C9_roundtrip (doc : Xml) (r : Robot) (h : parseRobot doc = some r) :
    parseRobot (serializeRobot r) = parseRobot doc := by
  rw [h]
  exact parseRobot_serialize r

/-- a small concrete document: one link, one revolute joint. -/
def exDoc : Xml :=
  .elem "robot" [("name", "bot")]
    [.elem "link" [("name", "L")] [],
     .elem "joint" [("name", "J"), ("type", "revolute")] []]

/-- the robot value exDoc parses to. -/
def exDocRobot : Robot :=
  { name := "bot",
    links := [{ name := "L", visual := [], collision := [], inertial := none,
                origin := none }],
    joints := [{ name := "J", type := "revolute", parent := none, child := none,
                 origin := none, axis := none, limit := none, dynamics := none }] }

/-- C9 witness: the round-trip theorem applied to the concrete document. -/
theorem C9_roundtrip_witness :
    parseRobot (serializeRobot exDocRobot) = parseRobot exDoc :=
  C9_roundtrip exDoc exDocRobot (by decide)

end Urdf
